import Mathlib

/-!
Verification development for the moonray_gui interactive-display core.

The definitions below are a shallow embedding of the C++ sources:
  * RenderGui.cc / RenderGui.h (frame timestamp coordinator, output
    selector, tile fade tracker, denoise stage, addSaturate)
  * ColorManager.cc (color pipeline path decision)
  * RenderViewport.cc (render-output index key handling)

Machine `uint32_t` timestamps are modeled as `Nat` (monotone counters;
wraparound after 2^32 increments is out of scope for these properties),
`double` wall-clock times and fps values as `ℚ`, camera transforms as an
abstract identifier (`Nat`) compared for equality exactly as the code
compares matrices with `isEqual`, and per-tile bitsets as `Finset ℕ`
(BitArray words combined with `a &= ~b` is set difference).
External render-engine observations (isFrameRendering, film activity,
output-name list, ...) are per-tick inputs.
-/

namespace MoonrayGui

/-- Debug display modes, from GuiTypes.h. -/
inductive DebugMode
  | RGB
  | RED
  | GREEN
  | BLUE
  | ALPHA
  | LUMINANCE
  | RGB_NORMALIZED
  | NUM_SAMPLES
deriving DecidableEq, Repr

/-- Render modes, from moonray::rndr::RenderMode as dispatched in
updateInteractiveRendering. -/
inductive RenderMode
  | PROGRESSIVE
  | PROGRESSIVE_FAST
  | PROGRESS_CHECKPOINT
  | BATCH
  | REALTIME
deriving DecidableEq, Repr

/-- Pixel formats of scene_rdl2::fb_util::VariablePixelBuffer that matter
to the color-pipeline path decision (FLOAT3/FLOAT4 are the color formats;
everything else falls in the `other` bucket the code treats uniformly). -/
inductive PixelFormat
  | FLOAT
  | FLOAT2
  | FLOAT3
  | FLOAT4
  | RGB888
  | RGBA8888
deriving DecidableEq, Repr

/-- Denoising buffer modes, from GuiTypes.h. -/
inductive DenoisingBufferMode
  | DN_BUFFERS_BEAUTY
  | DN_BUFFERS_BEAUTY_ALBEDO
  | DN_BUFFERS_BEAUTY_ALBEDO_NORMALS
deriving DecidableEq, Repr

/-- 8-bit saturating add from RenderGui.cc lines 41-46:
`uint8_t result = (uint8_t)(fb + c); fb = (result >= fb) ? result : 255;`.
Bytes are Nats < 256; the uint8_t cast is `% 256`. -/
def addSaturate (fb c : ℕ) : ℕ :=
  let result := (fb + c) % 256
  if result ≥ fb then result else 255

/-- What ColorManager::applyCRT actually executes (part_006 lines 191-263). -/
inductive CrtAction
  | ocioRenderBuffer
  | ocioOutputBuffer
  | legacy
deriving DecidableEq, Repr

/-- Channel count computed in ColorManager::applyCRT lines 211-212:
`renderOutputBuffer.getFormat() == FLOAT4 || renderOutput < 0 ? 4 :
 renderOutputBuffer.getFormat() == FLOAT3 ? 3 : -1`. -/
def numChannelsCRT (renderOutput : ℤ) (fmt : PixelFormat) : ℤ :=
  if fmt = PixelFormat.FLOAT4 ∨ renderOutput < 0 then 4
  else if fmt = PixelFormat.FLOAT3 then 3
  else -1

/-- Path decision of ColorManager::applyCRT (part_006 lines 214-250), OCIO
build configuration: the function applies the OCIO processor iff
`useOCIO && mode != RGB_NORMALIZED && mode != NUM_SAMPLES && numChannels >= 3`,
dispatching on the render buffer vs the FLOAT3/FLOAT4 output buffer, and
otherwise runs applyCRT_Legacy. -/
def applyCRT (useOcio : Bool) (mode : DebugMode) (renderOutput : ℤ)
    (fmt : PixelFormat) : CrtAction :=
  if useOcio = true ∧ mode ≠ DebugMode.RGB_NORMALIZED ∧ mode ≠ DebugMode.NUM_SAMPLES ∧
      numChannelsCRT renderOutput fmt ≥ 3 then
    if renderOutput < 0 then CrtAction.ocioRenderBuffer
    else if fmt = PixelFormat.FLOAT3 ∨ fmt = PixelFormat.FLOAT4 then CrtAction.ocioOutputBuffer
    else CrtAction.legacy
  else CrtAction.legacy

/-- True when applyCRT takes the configurable-transform (OCIO) path. -/
def isConfigurablePath : CrtAction → Bool
  | CrtAction.ocioRenderBuffer => true
  | CrtAction.ocioOutputBuffer => true
  | CrtAction.legacy => false

/-- Output-selector state: the RenderGui members mutated by
RenderGui::updateRenderOutput (RenderGui.h lines 154-160). -/
structure OutputSelState where
  lastRenderOutputGuiIndx : ℤ
  renderOutput : ℤ
  lastTotalRenderOutputs : ℤ
  lastRenderOutputName : String
deriving DecidableEq, Repr

/-- The name-match loop of RenderGui::updateRenderOutput (lines 900-906):
index of the first output whose name equals `name`, if any. -/
def findNameIdx (name : String) : List String → Option ℕ
  | [] => none
  | n :: rest => if n = name then some 0 else (findNameIdx name rest).map (· + 1)

/-- First phase of RenderGui::updateRenderOutput (lines 879-895): react to
the viewport's increment/decrement requests, saturating at -1 (render
buffer) below and at the last output above. -/
def selStep1 (s : OutputSelState) (guiIndx numRenderOutputs : ℤ) :
    Bool × OutputSelState :=
  if guiIndx ≠ s.lastRenderOutputGuiIndx then
    if guiIndx > s.lastRenderOutputGuiIndx then
      -- find next active output
      if s.renderOutput + 1 < numRenderOutputs then
        (true, { s with renderOutput := s.renderOutput + 1,
                        lastRenderOutputGuiIndx := guiIndx })
      else (false, { s with lastRenderOutputGuiIndx := guiIndx })
    else
      -- find previous active output; -1 means to use the render buffer
      if s.renderOutput ≥ 0 then
        (true, { s with renderOutput := s.renderOutput - 1,
                        lastRenderOutputGuiIndx := guiIndx })
      else (false, { s with lastRenderOutputGuiIndx := guiIndx })
  else (false, s)

/-- The selection index resolved by the count-changed branch of
updateRenderOutput (lines 900-912): the first name match if any, else the
previous index, clamped to count - 1 when out of range. -/
def selResolved (s : OutputSelState) (outputs : List String) : ℤ :=
  let roNameMatch : ℤ :=
    match findNameIdx s.lastRenderOutputName outputs with
    | some i => (i : ℤ)
    | none => s.renderOutput
  if ¬ roNameMatch < (outputs.length : ℤ) then (outputs.length : ℤ) - 1
  else roNameMatch

/-- The output name the count-changed branch compares against (line 916):
note the code uses `mRenderOutput > 0`, so index 0's actual name is never
consulted and "" is used instead. -/
def selOutputName (s : OutputSelState) (outputs : List String) : String :=
  if selResolved s outputs > 0 then outputs.getD (selResolved s outputs).toNat ""
  else ""

/-- Second phase of RenderGui::updateRenderOutput (lines 897-922): when the
available-output count changed (scene reload), try to re-find the
previously-selected output by name, clamp an out-of-range index to
count - 1, and flag an update when the recorded name differs from the
resolved one (which the code computes as "" for index <= 0). -/
def selStep2 (s : OutputSelState) (updated : Bool) (outputs : List String) :
    Bool × OutputSelState :=
  if s.lastTotalRenderOutputs ≠ (outputs.length : ℤ) then
    (updated || decide (s.lastRenderOutputName ≠ selOutputName s outputs),
     { s with renderOutput := selResolved s outputs,
              lastTotalRenderOutputs := (outputs.length : ℤ) })
  else (updated, s)

/-- Final phase of RenderGui::updateRenderOutput (lines 924-936): on an
update, record the newly-selected output's name ("" for the render
buffer). -/
def selFinal (s : OutputSelState) (updated : Bool) (outputs : List String) :
    Bool × OutputSelState :=
  if updated = true then
    if s.renderOutput < 0 then
      (true, { s with lastRenderOutputName := "" })
    else
      (true, { s with lastRenderOutputName := outputs.getD s.renderOutput.toNat "" })
  else (false, s)

/-- RenderGui::updateRenderOutput (RenderGui.cc lines 865-937).
`guiIndx` is the viewport's current render-output index,
`rodPresent` whether getRenderOutputDriver() returned non-null, and
`outputs` the names of the available render outputs in order.
Returns the `updated` flag and the new selector state. -/
def updateRenderOutput (s : OutputSelState) (guiIndx : ℤ) (rodPresent : Bool)
    (outputs : List String) : Bool × OutputSelState :=
  -- rod can be null if we have not yet called startFrame()
  if rodPresent = false then (false, s)
  else
    let p1 := selStep1 s guiIndx (outputs.length : ℤ)
    let p2 := selStep2 p1.2 p1.1 outputs
    selFinal p2.2 p2.1 outputs

/-- Iterate updateRenderOutput over a sequence of per-tick viewport index
values, with a fixed output list (no scene reload between ticks). -/
def runSelector (rodPresent : Bool) (outputs : List String) :
    OutputSelState → List ℤ → OutputSelState
  | s, [] => s
  | s, g :: gs => runSelector rodPresent outputs (updateRenderOutput s g rodPresent outputs).2 gs

/-- The tile-fade masking step of RenderGui::showTileProgress
(RenderGui.cc lines 841-854): for i = 1..3,
`mFadeLevels[i].combine(mFadeLevels[0], [](a, b) \x7b a &= ~b; \x7d)`,
i.e. every bit present in level 0 is removed from levels 1..3.
Bitsets are modeled as `Finset ℕ`; `a &= ~b` per 32-bit word is exactly
set difference. -/
def maskFadeLevels (lv : Fin 4 → Finset ℕ) : Fin 4 → Finset ℕ :=
  fun i => if i = 0 then lv 0 else lv i \ lv 0

/-- The shift step of RenderGui::showTileProgress (lines 858-862): for
i = 3 downTo 1, `mFadeLevels[i].combine(mFadeLevels[i-1], [](a, b) \x7b a = b; \x7d)`.
Applied to the already-masked levels; level 0 is overwritten next tick. -/
def shiftFadeLevels (lv : Fin 4 → Finset ℕ) : Fin 4 → Finset ℕ :=
  fun i => if i = 0 then lv 0 else lv (i - 1)

/-- The configuration equality-checked when deciding whether to rebuild the
denoiser (RenderGui.cc lines 296-300): denoiser mode, image width/height,
useAlbedo, useNormals. The DenoiserMode enum is abstracted to `ℕ`. -/
structure DenoiserConfig where
  mode : ℕ
  imageWidth : ℕ
  imageHeight : ℕ
  useAlbedo : Bool
  useNormals : Bool
deriving DecidableEq, Repr

/-- Outcome of the denoise section of RenderGui::updateFrame for one call:
the buffer handed on to the color-grading/display code, the retained
denoiser instance (abstracted to its configuration; `none` = null), and
the diagnostic messages printed. -/
structure DenoiseOutcome (β : Type) where
  buffer : β
  denoiser : Option DenoiserConfig
  messages : List String

/-- The denoiser configuration requested on a call, from RenderGui.cc
lines 286-303: `useAlbedo = albedoIndx >= 0 && bufferMode != DN_BUFFERS_BEAUTY`,
`useNormals = (albedoIndx >= 0 && normalIndx >= 0) && bufferMode ==
DN_BUFFERS_BEAUTY_ALBEDO_NORMALS`. -/
def denoiserConfigOf (albedoIndx normalIndx : ℤ) (bufferMode : DenoisingBufferMode)
    (denMode w h : ℕ) : DenoiserConfig :=
  { mode := denMode, imageWidth := w, imageHeight := h,
    useAlbedo := decide (albedoIndx ≥ 0 ∧ bufferMode ≠ DenoisingBufferMode.DN_BUFFERS_BEAUTY),
    useNormals := decide ((albedoIndx ≥ 0 ∧ normalIndx ≥ 0) ∧
        bufferMode = DenoisingBufferMode.DN_BUFFERS_BEAUTY_ALBEDO_NORMALS) }

/-- The denoise section of RenderGui::updateFrame (RenderGui.cc lines
281-338), parametric in the buffer representation `β`.

`denoiseEnabled`, `mode` and `renderOutput` gate the whole section
(line 281). `albedoIndx`/`normalIndx` are the render-output driver's
denoiser inputs, `bufferMode` the viewport's denoising buffer mode,
`denMode`/`w`/`h` the requested denoiser mode and resolution.
`denoiser` is the current `mDenoiser` (its configuration, or `none`).
`createError`/`denoiseError` model the error strings reported by the
Denoiser constructor and by `Denoiser::denoise`. `inputBuffer` is the
snapshotted beauty `renderBuffer`, `denoisedBuffer` the contents of
`mDenoisedRenderBuffer` after the denoise call. -/
def denoiseSection {β : Type} (denoiseEnabled : Bool) (mode : DebugMode)
    (renderOutput : ℤ) (albedoIndx normalIndx : ℤ)
    (bufferMode : DenoisingBufferMode) (denMode w h : ℕ)
    (denoiser : Option DenoiserConfig)
    (createError denoiseError : Option String)
    (inputBuffer denoisedBuffer : β) : DenoiseOutcome β :=
  if denoiseEnabled = true ∧ mode ≠ DebugMode.NUM_SAMPLES ∧ renderOutput < 0 then
    let cfg := denoiserConfigOf albedoIndx normalIndx bufferMode denMode w h
    -- recreate the denoiser if not yet created or the config changed
    let recreated : Option DenoiserConfig × List String :=
      if denoiser ≠ some cfg then
        match createError with
        | some e => (none, ["Error creating denoiser: " ++ e])
        | none => (some cfg, [])
      else (denoiser, [])
    match recreated.1 with
    | some d =>
      -- mDenoiser->denoise(...); on error only a message is printed, and
      -- renderBuffer is still redirected to mDenoisedRenderBuffer
      let msgs := recreated.2 ++
        (match denoiseError with
         | some e => ["Error denoising: " ++ e]
         | none => [])
      { buffer := denoisedBuffer, denoiser := some d, messages := msgs }
    | none =>
      { buffer := inputBuffer, denoiser := none, messages := recreated.2 }
  else
    { buffer := inputBuffer, denoiser := denoiser, messages := [] }

/-- Interactive-rendering coordinator state: the RenderGui members read
and written by the progressive and real-time update ticks
(RenderGui.h lines 116-167). Camera transforms are abstracted to an
identifier compared for equality; the FastRenderMode enum to `ℕ`.
`needsRefresh` is the viewport flag read and cleared by the progressive
tick. -/
structure GuiState where
  masterTimestamp : ℕ
  renderTimestamp : ℕ
  lastSnapshotTimestamp : ℕ
  lastSnapshotTime : ℚ
  lastFilmActivity : ℕ
  lastCameraXform : ℕ
  sel : OutputSelState
  renderMode : RenderMode
  fastRenderMode : ℕ
  needsRefresh : Bool
  okToRenderTiles : Bool
  numFadeBits : ℕ
deriving DecidableEq, Repr

/-- Per-tick observations of the render engine, scene and viewport made by
RenderGui::updateProgressiveRendering. -/
structure ProgInput where
  currentTime : ℚ
  sceneFps : ℚ
  filmActivity : ℕ
  frameRendering : Bool
  frameComplete : Bool
  readyForDisplay : Bool
  rodPresent : Bool
  outputNames : List String
  guiIndx : ℤ
  cameraXform : ℕ
  vpIsFastProgressive : Bool
  vpFastMode : ℕ
  numTiles : ℕ
deriving DecidableEq, Repr

/-- Per-tick observations made by RenderGui::updateRealTimeRendering. -/
structure RtInput where
  currentTime : ℚ
  frameRendering : Bool
  readyForDisplay : Bool
  rodPresent : Bool
  outputNames : List String
  guiIndx : ℤ
  cameraXform : ℕ
deriving DecidableEq, Repr

/-- Events of one progressive tick: whether the throttled snapshot+display
push ran (lines 565-580), whether the needs-refresh redisplay ran
(lines 589-594), and whether a new frame was started (line 641). -/
structure ProgEvents where
  pushedMain : Bool
  pushedRefresh : Bool
  startedFrame : Bool
deriving DecidableEq, Repr

/-- Effective frames-per-second (RenderGui.cc lines 548-551): the scene
fps, defaulting to 24 when below 0.000001. -/
def effFps (sceneFps : ℚ) : ℚ :=
  if sceneFps < 1 / 1000000 then 24 else sceneFps

/-- Snapshot throttle check (RenderGui.cc line 554):
`(currentTime - mLastSnapshotTime) >= ((1.0 / fps) - 0.001)` (1 ms slop). -/
def snapshotIntervalElapsed (currentTime lastSnapshotTime fps : ℚ) : Bool :=
  decide (currentTime - lastSnapshotTime ≥ 1 / fps - 1 / 1000)

/-- Display phase of RenderGui::updateProgressiveRendering (lines 545-594):
the throttled snapshot+display push and the needs-refresh redisplay.
Returns the updated state and the two push flags. -/
def progDisplayPhase (s : GuiState) (i : ProgInput) : GuiState × Bool × Bool :=
  let afterMain : GuiState × Bool :=
    if i.frameRendering = true ∨ i.frameComplete = true then
      let fps := effFps i.sceneFps
      let intervalElapsed := snapshotIntervalElapsed i.currentTime s.lastSnapshotTime fps
      let renderSamplesPending := decide (i.filmActivity ≠ s.lastFilmActivity)
      let ro := updateRenderOutput s.sel i.guiIndx i.rodPresent i.outputNames
      let s1 := { s with sel := ro.2 }
      if i.readyForDisplay && ((intervalElapsed && renderSamplesPending) || ro.1) then
        ({ s1 with lastSnapshotTimestamp := s1.renderTimestamp,
                   lastSnapshotTime := i.currentTime,
                   lastFilmActivity := i.filmActivity }, true)
      else (s1, false)
    else (s, false)
  if afterMain.2 = false ∧ afterMain.1.needsRefresh = true ∧ i.frameComplete = true then
    ({ afterMain.1 with needsRefresh := false }, afterMain.2, true)
  else (afterMain.1, afterMain.2, false)

/-- Restart phase of RenderGui::updateProgressiveRendering (lines 599-652):
only entered once the previous frame has been displayed at least once
(`mLastSnapshotTimestamp >= mRenderTimestamp`); on any scene change it
stops the in-flight frame, bumps `mRenderTimestamp = ++mMasterTimestamp`,
resets the film activity, applies the camera transform, starts a new
frame and resets the tile-fade state. Returns the updated state and
whether a new frame was started. -/
def progRestartPhase (s : GuiState) (i : ProgInput) : GuiState × Bool :=
  if s.lastSnapshotTimestamp ≥ s.renderTimestamp then
    let cameraChanged := decide (i.cameraXform ≠ s.lastCameraXform)
    let currentMode := if i.vpIsFastProgressive = true then RenderMode.PROGRESSIVE_FAST
                       else RenderMode.PROGRESSIVE
    let modeChanged := decide (s.renderMode ≠ currentMode)
    let fastModeChanged := decide (s.fastRenderMode ≠ i.vpFastMode)
    let sceneChanged := cameraChanged || decide (s.masterTimestamp ≠ s.renderTimestamp) ||
                        modeChanged || fastModeChanged
    let s1 := { s with renderMode := currentMode, fastRenderMode := i.vpFastMode }
    if sceneChanged = true then
      ({ s1 with masterTimestamp := s.masterTimestamp + 1,
                 renderTimestamp := s.masterTimestamp + 1,
                 lastFilmActivity := 0,
                 lastCameraXform := i.cameraXform,
                 okToRenderTiles := false,
                 numFadeBits := if s.numFadeBits ≠ i.numTiles then i.numTiles
                                else s.numFadeBits }, true)
    else (s1, false)
  else (s, false)

/-- RenderGui::updateProgressiveRendering (RenderGui.cc lines 534-655):
display phase followed by restart phase. -/
def updateProgressiveRendering (s : GuiState) (i : ProgInput) : GuiState × ProgEvents :=
  let d := progDisplayPhase s i
  let r := progRestartPhase d.1 i
  (r.1, { pushedMain := d.2.1, pushedRefresh := d.2.2, startedFrame := r.2 })

/-- RenderGui::updateRealTimeRendering (RenderGui.cc lines 657-710).
Returns the updated state and whether a new frame was started. -/
def updateRealTimeRendering (s : GuiState) (i : RtInput) : GuiState × Bool :=
  if i.frameRendering = true then
    if i.readyForDisplay = true then
      -- stopFrame; mRenderTimestamp = ++mMasterTimestamp; updateRenderOutput;
      -- snapshot + display; commit stats; update camera; startFrame
      let s1 := { s with masterTimestamp := s.masterTimestamp + 1,
                         renderTimestamp := s.masterTimestamp + 1 }
      let ro := updateRenderOutput s1.sel i.guiIndx i.rodPresent i.outputNames
      ({ s1 with sel := ro.2, lastCameraXform := i.cameraXform }, true)
    else (s, false)
  else
    -- kick off the first frame
    ({ s with lastCameraXform := i.cameraXform,
              masterTimestamp := s.masterTimestamp + 1,
              renderTimestamp := s.masterTimestamp + 1 }, true)

/-- RenderGui::beginInteractiveRendering (RenderGui.cc lines 471-501):
resets the render/snapshot timestamps, snapshot time and film activity,
and records the (conditioned) camera transform. `mMasterTimestamp` is
left untouched. -/
def beginInteractiveRendering (s : GuiState) (cameraXform : ℕ) : GuiState :=
  { s with renderTimestamp := 0,
           lastSnapshotTimestamp := 0,
           lastSnapshotTime := 0,
           lastFilmActivity := 0,
           lastCameraXform := cameraXform }

/-- The coordinator state established by the RenderGui constructor
(RenderGui.cc lines 207-238): all timestamps and trackers zeroed except
`mMasterTimestamp = 1`, `mRenderOutput = -1`. -/
def initState : GuiState :=
  { masterTimestamp := 1
    renderTimestamp := 0
    lastSnapshotTimestamp := 0
    lastSnapshotTime := 0
    lastFilmActivity := 0
    lastCameraXform := 0
    sel := { lastRenderOutputGuiIndx := 0, renderOutput := -1,
             lastTotalRenderOutputs := 0, lastRenderOutputName := "" }
    renderMode := RenderMode.PROGRESSIVE
    fastRenderMode := 0
    needsRefresh := false
    okToRenderTiles := false
    numFadeBits := 0 }

/-- Coordinator states reachable after beginInteractiveRendering and any
sequence of progressive or real-time update ticks. -/
inductive Reachable : GuiState → Prop
  | begin (s : GuiState) (x : ℕ) : Reachable (beginInteractiveRendering s x)
  | prog {s : GuiState} (h : Reachable s) (i : ProgInput) :
      Reachable (updateProgressiveRendering s i).1
  | rt {s : GuiState} (h : Reachable s) (i : RtInput) :
      Reachable (updateRealTimeRendering s i).1

/-- Concrete selector state used as a witness input: output index 1 of two
outputs selected. -/
def selW : OutputSelState :=
  { lastRenderOutputGuiIndx := 0, renderOutput := 1,
    lastTotalRenderOutputs := 2, lastRenderOutputName := "b" }

/-- Concrete selector state: index 0 of two outputs selected, named "a".
A scene reload to the three outputs ["b", "a", "c"] re-finds "a" at
index 1 — the resolved index changes while the backing name does not. -/
def selC : OutputSelState :=
  { lastRenderOutputGuiIndx := 0, renderOutput := 0,
    lastTotalRenderOutputs := 2, lastRenderOutputName := "a" }

/-- Concrete selector state for the 5-to-2 scene-reload scenario: index 4
of five outputs selected, named "glow". -/
def selGlow : OutputSelState :=
  { lastRenderOutputGuiIndx := 0, renderOutput := 4,
    lastTotalRenderOutputs := 5, lastRenderOutputName := "glow" }

/-- Fade-level contents with tile 5 present in both level 1 and level 2
(and level 0 empty), as can be handed to the masking step. -/
def lvDup : Fin 4 → Finset ℕ :=
  fun i => if i = 1 ∨ i = 2 then {5} else ∅

/-- Fade-level contents with distinct single tiles per level. -/
def lvW : Fin 4 → Finset ℕ :=
  fun i => {(i : ℕ)}

/-- First progressive tick after session begin: no frame in flight yet, no
user activity; the restart phase fires because `masterTimestamp (1) !=
renderTimestamp (0)`. -/
def cexI1 : ProgInput :=
  { currentTime := 0, sceneFps := 24, filmActivity := 0,
    frameRendering := false, frameComplete := false, readyForDisplay := false,
    rodPresent := false, outputNames := [], guiIndx := 0, cameraXform := 0,
    vpIsFastProgressive := false, vpFastMode := 0, numTiles := 0 }

/-- Second progressive tick: the frame renders, samples arrived
(filmActivity 7) and the throttle interval has elapsed, so the display
push fires and `lastSnapshotTimestamp` catches up to `renderTimestamp`. -/
def cexI2 : ProgInput :=
  { cexI1 with currentTime := 1, filmActivity := 7,
               frameRendering := true, readyForDisplay := true }

/-- Third progressive tick: the user moved the camera (transform 1) but no
new samples arrived; the restart phase starts a new frame even though
`renderTimestamp = masterTimestamp`. -/
def cexI3 : ProgInput :=
  { cexI1 with currentTime := 2, frameRendering := true, cameraXform := 1 }

/-- The coordinator state reached after beginInteractiveRendering and the
ticks cexI1, cexI2: master = render = snapshot = 2. -/
def cexReached : GuiState :=
  (updateProgressiveRendering
    (updateProgressiveRendering (beginInteractiveRendering initState 0) cexI1).1
    cexI2).1

/-- Concrete coordinator state in display steady state: all three
timestamps equal 2, no pending refresh, last snapshot at time 0. -/
def progW : GuiState :=
  { masterTimestamp := 2, renderTimestamp := 2, lastSnapshotTimestamp := 2,
    lastSnapshotTime := 0, lastFilmActivity := 0, lastCameraXform := 0,
    sel := { lastRenderOutputGuiIndx := 0, renderOutput := -1,
             lastTotalRenderOutputs := 0, lastRenderOutputName := "" },
    renderMode := RenderMode.PROGRESSIVE, fastRenderMode := 0,
    needsRefresh := false, okToRenderTiles := true, numFadeBits := 0 }

/-- Progressive tick input at time 1 with fresh samples (filmActivity 7),
frame rendering and ready, nothing else changed. -/
def inW1 : ProgInput :=
  { currentTime := 1, sceneFps := 24, filmActivity := 7,
    frameRendering := true, frameComplete := false, readyForDisplay := true,
    rodPresent := false, outputNames := [], guiIndx := 0, cameraXform := 0,
    vpIsFastProgressive := false, vpFastMode := 0, numTiles := 0 }

/-- The same observation 10 ms later: within the 1/24 s throttle interval
and with the film-activity counter unchanged. -/
def inW2 : ProgInput :=
  { inW1 with currentTime := 1 + 1 / 100 }

/-! Theorems. -/

/-- C10: the 8-bit overlay pixel accumulation addSaturate(fb, c) computes
min(fb + c, 255) for every pair of byte values fb and c: it never wraps
around modulo 256, so drawing tile outlines can only brighten a pixel,
never darken it. -/
theorem addSaturate_is_min (fb : ℕ) (hfb : fb < 256) (c : ℕ) (hc : c < 256) :
    addSaturate fb c = min (fb + c) 255 ∧ fb ≤ addSaturate fb c := by
  simp only [addSaturate]
  constructor
  · split <;> omega
  · split <;> omega

/-- Witness for C10 at fb = 200, c = 100. -/
theorem addSaturate_is_min_witness :
    200 < 256 ∧ 100 < 256 ∧
      (addSaturate 200 100 = min (200 + 100) 255 ∧ 200 ≤ addSaturate 200 100) :=
  ⟨by decide, by decide, addSaturate_is_min 200 (by decide) 100 (by decide)⟩

/-- C7: the color pipeline takes the configurable-transform (OCIO) path
exactly when the configurable transform is enabled AND the debug mode is
neither RGB_NORMALIZED nor NUM_SAMPLES AND the selected buffer has at
least 3 channels (the primary render buffer, or an auxiliary output of
FLOAT3/FLOAT4 format); in every other case it takes the legacy path. -/
theorem applyCRT_path_characterization (useOcio : Bool) (mode : DebugMode)
    (renderOutput : ℤ) (fmt : PixelFormat) :
    (isConfigurablePath (applyCRT useOcio mode renderOutput fmt) = true ↔
      (useOcio = true ∧ mode ≠ DebugMode.RGB_NORMALIZED ∧ mode ≠ DebugMode.NUM_SAMPLES ∧
        (renderOutput < 0 ∨ fmt = PixelFormat.FLOAT3 ∨ fmt = PixelFormat.FLOAT4))) ∧
    (isConfigurablePath (applyCRT useOcio mode renderOutput fmt) = false →
      applyCRT useOcio mode renderOutput fmt = CrtAction.legacy) := by
  unfold applyCRT numChannelsCRT
  split_ifs <;> simp_all [isConfigurablePath]

/-- Single updateRenderOutput tick with a fixed output list: the selector
index stays in [-1, count-1] and the recorded output count is unchanged. -/
theorem selStep1_preserves_range (s : OutputSelState) (guiIndx n : ℤ)
    (hlo : -1 ≤ s.renderOutput) (hhi : s.renderOutput < n) :
    (selStep1 s guiIndx n).2.lastTotalRenderOutputs = s.lastTotalRenderOutputs ∧
    -1 ≤ (selStep1 s guiIndx n).2.renderOutput ∧
    (selStep1 s guiIndx n).2.renderOutput < n := by
  unfold selStep1
  split_ifs <;> simp_all <;> omega

theorem selStep2_of_sameCount (s : OutputSelState) (updated : Bool)
    (outputs : List String)
    (hTotal : s.lastTotalRenderOutputs = (outputs.length : ℤ)) :
    selStep2 s updated outputs = (updated, s) := by
  unfold selStep2
  simp [hTotal]

theorem selFinal_fields (s : OutputSelState) (updated : Bool)
    (outputs : List String) :
    (selFinal s updated outputs).2.renderOutput = s.renderOutput ∧
    (selFinal s updated outputs).2.lastTotalRenderOutputs = s.lastTotalRenderOutputs := by
  unfold selFinal
  split_ifs <;> simp_all

theorem updateRenderOutput_preserves_range (s : OutputSelState) (guiIndx : ℤ)
    (rodPresent : Bool) (outputs : List String)
    (hTotal : s.lastTotalRenderOutputs = (outputs.length : ℤ))
    (hlo : -1 ≤ s.renderOutput) (hhi : s.renderOutput < (outputs.length : ℤ)) :
    (updateRenderOutput s guiIndx rodPresent outputs).2.lastTotalRenderOutputs
        = (outputs.length : ℤ) ∧
    -1 ≤ (updateRenderOutput s guiIndx rodPresent outputs).2.renderOutput ∧
    (updateRenderOutput s guiIndx rodPresent outputs).2.renderOutput
        < (outputs.length : ℤ) := by
  unfold updateRenderOutput
  split_ifs with hrod
  · exact ⟨hTotal, hlo, hhi⟩
  · obtain ⟨h1, h2, h3⟩ :=
      selStep1_preserves_range s guiIndx (outputs.length : ℤ) hlo hhi
    dsimp only
    rw [selStep2_of_sameCount _ _ _ (h1.trans hTotal)]
    obtain ⟨f1, f2⟩ := selFinal_fields (selStep1 s guiIndx (outputs.length : ℤ)).2
      (selStep1 s guiIndx (outputs.length : ℤ)).1 outputs
    exact ⟨f2.trans (h1.trans hTotal), f1 ▸ h2, f1 ▸ h3⟩

/-- C6: for every starting selection index (within the valid range
[-1, N-1]) and every sequence of user increment/decrement requests with a
fixed list of N available outputs, the resolved render-output index never
goes below -1 and never exceeds N-1 (selection saturates at both ends
rather than wrapping). -/
theorem selector_saturates (rodPresent : Bool) (outputs : List String)
    (gs : List ℤ) (s : OutputSelState)
    (hTotal : s.lastTotalRenderOutputs = (outputs.length : ℤ))
    (hlo : -1 ≤ s.renderOutput) (hhi : s.renderOutput < (outputs.length : ℤ)) :
    -1 ≤ (runSelector rodPresent outputs s gs).renderOutput ∧
    (runSelector rodPresent outputs s gs).renderOutput < (outputs.length : ℤ) := by
  induction gs generalizing s with
  | nil => exact ⟨hlo, hhi⟩
  | cons g gs ih =>
    obtain ⟨h1, h2, h3⟩ :=
      updateRenderOutput_preserves_range s g rodPresent outputs hTotal hlo hhi
    exact ih _ h1 h2 h3

/-- Witness for C6: three decrements from index 1 with two outputs stay
within [-1, 1]. -/
theorem selector_saturates_witness :
    selW.lastTotalRenderOutputs = ((["a", "b"].length : ℕ) : ℤ) ∧
    (-1 ≤ (runSelector true ["a", "b"] selW [-1, -2, -3]).renderOutput ∧
      (runSelector true ["a", "b"] selW [-1, -2, -3]).renderOutput
        < ((["a", "b"].length : ℕ) : ℤ)) :=
  ⟨by decide,
    selector_saturates true ["a", "b"] [-1, -2, -3] selW (by decide) (by decide) (by decide)⟩

/-- findNameIdx only returns indices of the list. -/
theorem findNameIdx_lt_length (name : String) (l : List String) (j : ℕ)
    (h : findNameIdx name l = some j) : j < l.length := by
  induction l generalizing j with
  | nil => simp [findNameIdx] at h
  | cons n rest ih =>
    unfold findNameIdx at h
    split_ifs at h
    · simp only [Option.some.injEq] at h
      simp only [List.length_cons]
      omega
    · cases hfi : findNameIdx name rest with
      | none => rw [hfi] at h; simp at h
      | some k =>
        rw [hfi] at h
        simp at h
        have := ih k hfi
        simp only [List.length_cons]
        omega

/-- A tick whose viewport index equals the recorded one makes no
step-1 change. -/
theorem selStep1_same (s : OutputSelState) (n : ℤ) :
    selStep1 s s.lastRenderOutputGuiIndx n = (false, s) := by
  unfold selStep1
  simp

/-- The final phase returns the update flag it was given. -/
theorem selFinal_fst (s : OutputSelState) (updated : Bool)
    (outputs : List String) :
    (selFinal s updated outputs).1 = updated := by
  unfold selFinal
  split_ifs <;> simp_all

/-- C5 counterexample: the claim "changed = true in every case where the
resolved index or its backing output name differs from the previous
tick's" is false: from selC (index 0, name "a", two outputs recorded), a
reload to ["b", "a", "c"] re-finds "a" at index 1 — the resolved index
differs from the previous tick's — yet updateRenderOutput reports
changed = false ("found it, no update needed"). -/
theorem updateRenderOutput_changed_counterexample :
    ¬ (∀ (s : OutputSelState) (outputs : List String),
        s.lastTotalRenderOutputs ≠ (outputs.length : ℤ) →
        ((∀ j : ℕ, findNameIdx s.lastRenderOutputName outputs = some j →
            (updateRenderOutput s s.lastRenderOutputGuiIndx true outputs).2.renderOutput
              = (j : ℤ)) ∧
          (findNameIdx s.lastRenderOutputName outputs = none →
            ¬ s.renderOutput < (outputs.length : ℤ) →
            (updateRenderOutput s s.lastRenderOutputGuiIndx true outputs).2.renderOutput
              = (outputs.length : ℤ) - 1) ∧
          (((updateRenderOutput s s.lastRenderOutputGuiIndx true outputs).2.renderOutput
              ≠ s.renderOutput ∨
            (if (updateRenderOutput s s.lastRenderOutputGuiIndx true outputs).2.renderOutput ≥ 0
              then outputs.getD
                (updateRenderOutput s s.lastRenderOutputGuiIndx true outputs).2.renderOutput.toNat ""
              else "") ≠ s.lastRenderOutputName) →
            (updateRenderOutput s s.lastRenderOutputGuiIndx true outputs).1 = true))) := by
  intro h
  have h3 := (h selC ["b", "a", "c"] (by decide)).2.2
  exact absurd (h3 (by decide)) (by decide)

/-- C5 (amended): when updateRenderOutput observes a changed output count,
it first re-selects the output matching the previously-recorded name; if
no name matches and the index is out of range it clamps to count - 1;
and it reports changed = true exactly when the resolved backing name —
computed as "" for a resolved index of 0 or -1 — differs from the
previously-recorded one. A name match that moves the index alone
reports changed = false. -/
theorem updateRenderOutput_countChanged (s : OutputSelState)
    (outputs : List String)
    (hcount : s.lastTotalRenderOutputs ≠ (outputs.length : ℤ)) :
    (∀ j : ℕ, findNameIdx s.lastRenderOutputName outputs = some j →
        (updateRenderOutput s s.lastRenderOutputGuiIndx true outputs).2.renderOutput
          = (j : ℤ)) ∧
    (findNameIdx s.lastRenderOutputName outputs = none →
      ¬ s.renderOutput < (outputs.length : ℤ) →
      (updateRenderOutput s s.lastRenderOutputGuiIndx true outputs).2.renderOutput
        = (outputs.length : ℤ) - 1) ∧
    ((updateRenderOutput s s.lastRenderOutputGuiIndx true outputs).1 = true ↔
      s.lastRenderOutputName ≠ selOutputName s outputs) := by
  have hmain : updateRenderOutput s s.lastRenderOutputGuiIndx true outputs
      = selFinal
          { s with renderOutput := selResolved s outputs,
                   lastTotalRenderOutputs := (outputs.length : ℤ) }
          (decide (s.lastRenderOutputName ≠ selOutputName s outputs)) outputs := by
    unfold updateRenderOutput
    dsimp only
    rw [selStep1_same]
    unfold selStep2
    rw [if_pos hcount]
    simp
  refine ⟨?_, ?_, ?_⟩
  · intro j hj
    rw [hmain, (selFinal_fields _ _ _).1]
    simp only [selResolved, hj]
    have := findNameIdx_lt_length _ _ _ hj
    rw [if_neg]
    omega
  · intro hnone hout
    rw [hmain, (selFinal_fields _ _ _).1]
    simp only [selResolved, hnone]
    rw [if_pos hout]
  · rw [hmain, selFinal_fst]
    simp

/-- Witness for C5 on the spec's scenario: reload shrinks the output list
from 5 to 2 while index 4 ("glow", now absent) was selected; the
selection resolves to index 1 = count - 1 and changed = true. -/
theorem updateRenderOutput_countChanged_witness :
    selGlow.lastTotalRenderOutputs ≠ ((["a", "b"].length : ℕ) : ℤ) ∧
    (updateRenderOutput selGlow selGlow.lastRenderOutputGuiIndx true
        ["a", "b"]).2.renderOutput = ((["a", "b"].length : ℕ) : ℤ) - 1 ∧
    (updateRenderOutput selGlow selGlow.lastRenderOutputGuiIndx true
        ["a", "b"]).1 = true := by
  refine ⟨by decide, ?_, ?_⟩
  · exact (updateRenderOutput_countChanged selGlow ["a", "b"] (by decide)).2.1
      (by decide) (by decide)
  · exact ((updateRenderOutput_countChanged selGlow ["a", "b"] (by decide)).2.2).mpr
      (by decide)

/-- C8 counterexample: the masking step does not make the four fade-level
bitsets pairwise disjoint for arbitrary prior contents — it only removes
level-0 bits from levels 1..3. With tile 5 in both level 1 and level 2
beforehand (lvDup), levels 1 and 2 still share tile 5 after masking. -/
theorem maskFadeLevels_counterexample :
    ¬ (∀ (lv : Fin 4 → Finset ℕ) (i j : Fin 4), i ≠ j →
        maskFadeLevels lv i ∩ maskFadeLevels lv j = ∅) := by
  intro h
  exact absurd (h lvDup 1 2 (by decide)) (by decide)

/-- C8 (amended): immediately after the tile-fade masking step, level 0 is
disjoint from each of levels 1..3 for arbitrary inputs; and full
pairwise disjointness of all four levels holds provided levels 1..3
were already pairwise disjoint beforehand. -/
theorem maskFadeLevels_disjoint (lv : Fin 4 → Finset ℕ) :
    (∀ i : Fin 4, i ≠ 0 → maskFadeLevels lv i ∩ maskFadeLevels lv 0 = ∅) ∧
    ((∀ i j : Fin 4, i ≠ 0 → j ≠ 0 → i ≠ j → lv i ∩ lv j = ∅) →
      ∀ i j : Fin 4, i ≠ j → maskFadeLevels lv i ∩ maskFadeLevels lv j = ∅) := by
  constructor
  · intro i hi
    ext x
    simp only [maskFadeLevels, if_neg hi, if_pos rfl, Finset.mem_inter,
      Finset.mem_sdiff, Finset.not_mem_empty, iff_false, not_and]
    rintro ⟨_, hx0⟩
    exact hx0
  · intro hdisj i j hij
    by_cases hi : i = 0
    · subst hi
      have hj : j ≠ 0 := fun hj => hij hj.symm
      ext x
      simp only [maskFadeLevels, if_neg hj, if_pos rfl, Finset.mem_inter,
        Finset.mem_sdiff, Finset.not_mem_empty, iff_false, not_and]
      tauto
    · by_cases hj : j = 0
      · subst hj
        ext x
        simp only [maskFadeLevels, if_neg hi, if_pos rfl, Finset.mem_inter,
          Finset.mem_sdiff, Finset.not_mem_empty, iff_false, not_and]
        tauto
      · ext x
        simp only [maskFadeLevels, if_neg hi, if_neg hj, Finset.mem_inter,
          Finset.mem_sdiff, Finset.not_mem_empty, iff_false, not_and]
        have hmem : x ∉ lv i ∩ lv j := by
          rw [hdisj i j hi hj hij]
          exact Finset.not_mem_empty x
        rw [Finset.mem_inter] at hmem
        tauto

/-- Witness for C8 at lvW, whose levels 1..3 are pairwise disjoint. -/
theorem maskFadeLevels_disjoint_witness :
    (∀ i : Fin 4, i ≠ 0 → maskFadeLevels lvW i ∩ maskFadeLevels lvW 0 = ∅) ∧
    (∀ i j : Fin 4, i ≠ j → maskFadeLevels lvW i ∩ maskFadeLevels lvW j = ∅) :=
  ⟨(maskFadeLevels_disjoint lvW).1, (maskFadeLevels_disjoint lvW).2 (by decide)⟩

/-- C4 counterexample: it is not the case that every failing denoise
invocation passes the unmodified input beauty buffer on to display.
With a live denoiser (matching config, so no rebuild) whose per-frame
denoise reports an error, a diagnostic is printed but the buffer handed
on is mDenoisedRenderBuffer, not the input render buffer. -/
theorem denoise_fallback_counterexample :
    ¬ (∀ (denoiseEnabled : Bool) (mode : DebugMode)
        (renderOutput albedoIndx normalIndx : ℤ)
        (bufferMode : DenoisingBufferMode) (denMode w h : ℕ)
        (denoiser : Option DenoiserConfig)
        (createError denoiseError : Option String) (inputBuffer denoisedBuffer : ℕ),
        (denoiseSection denoiseEnabled mode renderOutput albedoIndx normalIndx
            bufferMode denMode w h denoiser createError denoiseError
            inputBuffer denoisedBuffer).messages ≠ [] →
        (denoiseSection denoiseEnabled mode renderOutput albedoIndx normalIndx
            bufferMode denMode w h denoiser createError denoiseError
            inputBuffer denoisedBuffer).buffer = inputBuffer) := by
  intro h
  exact absurd
    (h true DebugMode.RGB (-1) (-1) (-1) DenoisingBufferMode.DN_BUFFERS_BEAUTY 0 1 1
      (some (denoiserConfigOf (-1) (-1) DenoisingBufferMode.DN_BUFFERS_BEAUTY 0 1 1))
      none (some "fail") 0 1 (by decide))
    (by decide)

/-- C4 (amended): when the denoise stage is active, a filter-construction
failure passes the input beauty buffer through unmodified and emits a
diagnostic; a per-frame denoise failure emits a diagnostic and display
still proceeds, but with the denoiser's output buffer rather than the
unmodified input; in every case display proceeds with one of the two
buffers (never aborted). -/
theorem denoise_failure_behavior {β : Type} (denoiseEnabled : Bool)
    (mode : DebugMode) (renderOutput albedoIndx normalIndx : ℤ)
    (bufferMode : DenoisingBufferMode) (denMode w h : ℕ)
    (denoiser : Option DenoiserConfig)
    (createError denoiseError : Option String) (inputBuffer denoisedBuffer : β)
    (hactive : denoiseEnabled = true ∧ mode ≠ DebugMode.NUM_SAMPLES ∧ renderOutput < 0) :
    let r := denoiseSection denoiseEnabled mode renderOutput albedoIndx normalIndx
        bufferMode denMode w h denoiser createError denoiseError inputBuffer denoisedBuffer
    let cfg := denoiserConfigOf albedoIndx normalIndx bufferMode denMode w h
    (denoiser ≠ some cfg → createError.isSome = true →
      r.buffer = inputBuffer ∧ r.messages ≠ []) ∧
    ((denoiser = some cfg ∨ createError = none) → denoiseError.isSome = true →
      r.buffer = denoisedBuffer ∧ r.messages ≠ []) ∧
    (r.buffer = inputBuffer ∨ r.buffer = denoisedBuffer) := by
  dsimp only
  by_cases hd : denoiser = some (denoiserConfigOf albedoIndx normalIndx bufferMode denMode w h)
  · have hr : denoiseSection denoiseEnabled mode renderOutput albedoIndx normalIndx
        bufferMode denMode w h denoiser createError denoiseError inputBuffer denoisedBuffer
        = { buffer := denoisedBuffer,
            denoiser := some (denoiserConfigOf albedoIndx normalIndx bufferMode denMode w h),
            messages := [] ++ (match denoiseError with
              | some e => ["Error denoising: " ++ e]
              | none => []) } := by
      unfold denoiseSection
      rw [if_pos hactive, hd]
      simp
    refine ⟨fun hne => absurd hd hne, ?_, ?_⟩
    · intro _ hsome
      cases denoiseError with
      | none => simp at hsome
      | some e => rw [hr]; exact ⟨rfl, by simp⟩
    · rw [hr]; exact Or.inr rfl
  · cases createError with
    | none =>
      have hr : denoiseSection denoiseEnabled mode renderOutput albedoIndx normalIndx
          bufferMode denMode w h denoiser none denoiseError inputBuffer denoisedBuffer
          = { buffer := denoisedBuffer,
              denoiser := some (denoiserConfigOf albedoIndx normalIndx bufferMode denMode w h),
              messages := [] ++ (match denoiseError with
                | some e => ["Error denoising: " ++ e]
                | none => []) } := by
        unfold denoiseSection
        rw [if_pos hactive]
        simp [hd]
      refine ⟨?_, ?_, ?_⟩
      · intro _ hsome; simp at hsome
      · intro _ hsome
        cases denoiseError with
        | none => simp at hsome
        | some e => rw [hr]; exact ⟨rfl, by simp⟩
      · rw [hr]; exact Or.inr rfl
    | some e =>
      have hr : denoiseSection denoiseEnabled mode renderOutput albedoIndx normalIndx
          bufferMode denMode w h denoiser (some e) denoiseError inputBuffer denoisedBuffer
          = { buffer := inputBuffer, denoiser := none,
              messages := ["Error creating denoiser: " ++ e] } := by
        unfold denoiseSection
        rw [if_pos hactive]
        simp [hd]
      refine ⟨?_, ?_, ?_⟩
      · intro _ _; rw [hr]; exact ⟨rfl, by simp⟩
      · intro hor
        rcases hor with hor | hor
        · exact absurd hor hd
        · exact absurd hor (by simp)
      · rw [hr]; exact Or.inl rfl

/-- Witness for C4: a concrete active invocation whose filter construction
fails passes the input buffer (0) through with a diagnostic, and display
proceeds with one of the two buffers. -/
theorem denoise_failure_behavior_witness :
    (true = true ∧ DebugMode.RGB ≠ DebugMode.NUM_SAMPLES ∧ (-1 : ℤ) < 0) ∧
    ((denoiseSection true DebugMode.RGB (-1) (-1) (-1)
        DenoisingBufferMode.DN_BUFFERS_BEAUTY 0 1 1 none (some "boom") none
        (0 : ℕ) 1).buffer = 0 ∧
      (denoiseSection true DebugMode.RGB (-1) (-1) (-1)
        DenoisingBufferMode.DN_BUFFERS_BEAUTY 0 1 1 none (some "boom") none
        (0 : ℕ) 1).messages ≠ []) :=
  ⟨⟨rfl, by decide, by decide⟩,
    (denoise_failure_behavior true DebugMode.RGB (-1) (-1) (-1)
        DenoisingBufferMode.DN_BUFFERS_BEAUTY 0 1 1 none (some "boom") none 0 1
        ⟨rfl, by decide, by decide⟩).1 (by decide) (by decide)⟩

/-- The display phase never touches the master or render timestamps, the
camera record, the modes, or the refresh flag. -/
theorem progDisplayPhase_fixed (s : GuiState) (i : ProgInput) :
    (progDisplayPhase s i).1.masterTimestamp = s.masterTimestamp ∧
    (progDisplayPhase s i).1.renderTimestamp = s.renderTimestamp ∧
    (progDisplayPhase s i).1.lastCameraXform = s.lastCameraXform ∧
    (progDisplayPhase s i).1.renderMode = s.renderMode ∧
    (progDisplayPhase s i).1.fastRenderMode = s.fastRenderMode := by
  unfold progDisplayPhase
  dsimp only
  split_ifs <;> simp

/-- The display phase either leaves the snapshot timestamp alone or sets
it to the (unchanged) render timestamp. -/
theorem progDisplayPhase_snap (s : GuiState) (i : ProgInput) :
    (progDisplayPhase s i).1.lastSnapshotTimestamp = s.lastSnapshotTimestamp ∨
    (progDisplayPhase s i).1.lastSnapshotTimestamp = s.renderTimestamp := by
  unfold progDisplayPhase
  dsimp only
  split_ifs <;> simp

/-- The restart phase preserves the timestamp ordering invariant. -/
theorem progRestartPhase_inv (s : GuiState) (i : ProgInput)
    (h1 : s.lastSnapshotTimestamp ≤ s.renderTimestamp)
    (h2 : s.renderTimestamp ≤ s.masterTimestamp) :
    (progRestartPhase s i).1.lastSnapshotTimestamp
        ≤ (progRestartPhase s i).1.renderTimestamp ∧
    (progRestartPhase s i).1.renderTimestamp
        ≤ (progRestartPhase s i).1.masterTimestamp := by
  unfold progRestartPhase
  dsimp only
  split_ifs <;> simp <;> omega

/-- C1: for every reachable state of the interactive-rendering coordinator
(after beginInteractiveRendering and any sequence of progressive or
real-time update ticks), the three timestamps satisfy
snapshotTimestamp <= renderTimestamp <= masterTimestamp. -/
theorem timestamp_invariant (s : GuiState) (h : Reachable s) :
    s.lastSnapshotTimestamp ≤ s.renderTimestamp ∧
    s.renderTimestamp ≤ s.masterTimestamp := by
  induction h with
  | begin s x => simp [beginInteractiveRendering]
  | @prog s hs i ih =>
    unfold updateProgressiveRendering
    dsimp only
    have hfix := progDisplayPhase_fixed s i
    have hd : (progDisplayPhase s i).1.lastSnapshotTimestamp
          ≤ (progDisplayPhase s i).1.renderTimestamp ∧
        (progDisplayPhase s i).1.renderTimestamp
          ≤ (progDisplayPhase s i).1.masterTimestamp := by
      rcases progDisplayPhase_snap s i with hsnap | hsnap <;>
        rw [hsnap, hfix.1, hfix.2.1] <;> omega
    exact progRestartPhase_inv _ i hd.1 hd.2
  | @rt s hs i ih =>
    unfold updateRealTimeRendering
    dsimp only
    split_ifs <;> simp <;> omega

/-- Witness for C1 at the state just after beginInteractiveRendering. -/
theorem timestamp_invariant_witness :
    (beginInteractiveRendering initState 0).lastSnapshotTimestamp
        ≤ (beginInteractiveRendering initState 0).renderTimestamp ∧
    (beginInteractiveRendering initState 0).renderTimestamp
        ≤ (beginInteractiveRendering initState 0).masterTimestamp :=
  timestamp_invariant _ (Reachable.begin initState 0)

/-- C2 counterexample: it is not the case that every progressive tick that
starts a frame does so from a pre-bump state with
renderTimestamp < masterTimestamp. From the reachable state cexReached
(master = render = snapshot = 2), a camera move (cexI3) starts a new
frame although renderTimestamp = masterTimestamp held before the bump.
(Real-time ticks, likewise covered by the claim, do not even require
snapshotTimestamp >= renderTimestamp.) -/
theorem startFrame_precondition_counterexample :
    ¬ (∀ s : GuiState, Reachable s → ∀ i : ProgInput,
        (updateProgressiveRendering s i).2.startedFrame = true →
        (progDisplayPhase s i).1.lastSnapshotTimestamp
            ≥ (progDisplayPhase s i).1.renderTimestamp ∧
        (progDisplayPhase s i).1.renderTimestamp
            < (progDisplayPhase s i).1.masterTimestamp) := by
  intro h
  have hreach : Reachable cexReached :=
    Reachable.prog (Reachable.prog (Reachable.begin initState 0) cexI1) cexI2
  exact absurd (h cexReached hreach cexI3 (by with_unfolding_all decide)).2
    (by with_unfolding_all decide)

/-- C2 (amended): in a progressive update tick, startFrame is invoked only
from a (pre-bump) state in which snapshotTimestamp >= renderTimestamp,
i.e. the prior frame's snapshot has been taken at least once;
renderTimestamp < masterTimestamp is not additionally required (a camera
move or mode toggle also restarts), and real-time ticks start frames
without either precondition. -/
theorem startFrame_requires_displayed (s : GuiState) (i : ProgInput)
    (h : (updateProgressiveRendering s i).2.startedFrame = true) :
    (progDisplayPhase s i).1.lastSnapshotTimestamp
        ≥ (progDisplayPhase s i).1.renderTimestamp := by
  unfold updateProgressiveRendering at h
  dsimp only at h
  unfold progRestartPhase at h
  dsimp only at h
  by_cases h1 : (progDisplayPhase s i).1.lastSnapshotTimestamp
      ≥ (progDisplayPhase s i).1.renderTimestamp
  · exact h1
  · rw [if_neg h1] at h
    simp at h

/-- Witness for C2: the first tick after session begin starts a frame, and
the pre-bump state satisfies snapshot >= render (0 >= 0). -/
theorem startFrame_requires_displayed_witness :
    (updateProgressiveRendering (beginInteractiveRendering initState 0) cexI1).2.startedFrame
        = true ∧
    (progDisplayPhase (beginInteractiveRendering initState 0) cexI1).1.lastSnapshotTimestamp
        ≥ (progDisplayPhase (beginInteractiveRendering initState 0) cexI1).1.renderTimestamp :=
  ⟨by with_unfolding_all decide,
    startFrame_requires_displayed _ cexI1 (by with_unfolding_all decide)⟩

/-- A tick whose viewport index and output count both match the recorded
ones reports no output change and leaves the selector untouched. -/
theorem updateRenderOutput_noChange (s : OutputSelState) (guiIndx : ℤ)
    (rodPresent : Bool) (outputs : List String)
    (hg : guiIndx = s.lastRenderOutputGuiIndx)
    (hc : s.lastTotalRenderOutputs = (outputs.length : ℤ)) :
    updateRenderOutput s guiIndx rodPresent outputs = (false, s) := by
  unfold updateRenderOutput
  split_ifs with hrod
  · rfl
  · dsimp only
    rw [hg, selStep1_same]
    dsimp only
    rw [selStep2_of_sameCount s false outputs hc]
    unfold selFinal
    simp

/-- The events record of a progressive tick projects the display-phase
push flags. -/
theorem updateProgressiveRendering_pushedMain (s : GuiState) (i : ProgInput) :
    (updateProgressiveRendering s i).2.pushedMain = (progDisplayPhase s i).2.1 := rfl

/-- The events record of a progressive tick projects the refresh flag. -/
theorem updateProgressiveRendering_pushedRefresh (s : GuiState) (i : ProgInput) :
    (updateProgressiveRendering s i).2.pushedRefresh = (progDisplayPhase s i).2.2 := rfl

/-- Display phase when the push condition fires: snapshot+display,
recording the snapshot timestamp, time and film activity. -/
theorem progDisplayPhase_pushTrue (s : GuiState) (i : ProgInput)
    (hgate : i.frameRendering = true ∨ i.frameComplete = true)
    (hcond : (i.readyForDisplay &&
        ((snapshotIntervalElapsed i.currentTime s.lastSnapshotTime (effFps i.sceneFps) &&
            decide (i.filmActivity ≠ s.lastFilmActivity)) ||
          (updateRenderOutput s.sel i.guiIndx i.rodPresent i.outputNames).1)) = true) :
    progDisplayPhase s i =
      ({ s with sel := (updateRenderOutput s.sel i.guiIndx i.rodPresent i.outputNames).2,
                lastSnapshotTimestamp := s.renderTimestamp,
                lastSnapshotTime := i.currentTime,
                lastFilmActivity := i.filmActivity }, true, false) := by
  unfold progDisplayPhase
  dsimp only
  rw [if_pos hgate, if_pos hcond, if_neg (by simp)]

/-- Display phase with no pending refresh and a false push condition:
no push of either kind. -/
theorem progDisplayPhase_quiet (s : GuiState) (i : ProgInput)
    (hnr : s.needsRefresh = false)
    (hcond : (i.readyForDisplay &&
        ((snapshotIntervalElapsed i.currentTime s.lastSnapshotTime (effFps i.sceneFps) &&
            decide (i.filmActivity ≠ s.lastFilmActivity)) ||
          (updateRenderOutput s.sel i.guiIndx i.rodPresent i.outputNames).1)) = false) :
    (progDisplayPhase s i).2.1 = false ∧ (progDisplayPhase s i).2.2 = false := by
  unfold progDisplayPhase
  dsimp only
  by_cases hgate : i.frameRendering = true ∨ i.frameComplete = true
  · rw [if_pos hgate, if_neg (fun hc => Bool.false_ne_true (hcond ▸ hc))]
    split_ifs with hr
    · simp [hnr] at hr
    · exact ⟨rfl, rfl⟩
  · rw [if_neg hgate]
    split_ifs with hr
    · simp [hnr] at hr
    · exact ⟨rfl, rfl⟩

/-- Restart phase with no scene change of any kind: a no-op. -/
theorem progRestartPhase_quiet (s : GuiState) (i : ProgInput)
    (hcam : i.cameraXform = s.lastCameraXform)
    (hmr : s.masterTimestamp = s.renderTimestamp)
    (hmode : (if i.vpIsFastProgressive = true then RenderMode.PROGRESSIVE_FAST
              else RenderMode.PROGRESSIVE) = s.renderMode)
    (hfast : i.vpFastMode = s.fastRenderMode) :
    progRestartPhase s i = (s, false) := by
  unfold progRestartPhase
  dsimp only
  by_cases hg : s.lastSnapshotTimestamp ≥ s.renderTimestamp
  · rw [if_pos hg, if_neg (by simp [hcam, hmr, hmode, hfast])]
    simp [hmode, hfast]
  · rw [if_neg hg]

/-- C3: in a progressive-family update tick (frame rendering or complete),
the throttled snapshot+display push happens exactly when the frame is
ready for display AND ((the snapshot interval of 1/fps minus 1ms has
elapsed AND the film-activity counter differs from the last recorded
one) OR the render-output selection changed); on that push,
lastSnapshotTimestamp is set to the current renderTimestamp,
lastSnapshotTime to the current time, and lastFilmActivity to the
current film-activity counter. The fps defaults to 24 when the scene
value is near-zero. -/
theorem progressive_push_characterization (s : GuiState) (i : ProgInput)
    (hgate : i.frameRendering = true ∨ i.frameComplete = true) :
    ((progDisplayPhase s i).2.1 =
      (i.readyForDisplay &&
        ((snapshotIntervalElapsed i.currentTime s.lastSnapshotTime (effFps i.sceneFps) &&
            decide (i.filmActivity ≠ s.lastFilmActivity)) ||
          (updateRenderOutput s.sel i.guiIndx i.rodPresent i.outputNames).1))) ∧
    ((progDisplayPhase s i).2.1 = true →
      (progDisplayPhase s i).1.lastSnapshotTimestamp = s.renderTimestamp ∧
      (progDisplayPhase s i).1.lastSnapshotTime = i.currentTime ∧
      (progDisplayPhase s i).1.lastFilmActivity = i.filmActivity) ∧
    (i.sceneFps < 1 / 1000000 → effFps i.sceneFps = 24) := by
  have hpc : (progDisplayPhase s i).2.1 =
      (i.readyForDisplay &&
        ((snapshotIntervalElapsed i.currentTime s.lastSnapshotTime (effFps i.sceneFps) &&
            decide (i.filmActivity ≠ s.lastFilmActivity)) ||
          (updateRenderOutput s.sel i.guiIndx i.rodPresent i.outputNames).1)) := by
    by_cases hb : (i.readyForDisplay &&
        ((snapshotIntervalElapsed i.currentTime s.lastSnapshotTime (effFps i.sceneFps) &&
            decide (i.filmActivity ≠ s.lastFilmActivity)) ||
          (updateRenderOutput s.sel i.guiIndx i.rodPresent i.outputNames).1)) = true
    · rw [progDisplayPhase_pushTrue s i hgate hb, hb]
    · have hbf : (i.readyForDisplay &&
          ((snapshotIntervalElapsed i.currentTime s.lastSnapshotTime (effFps i.sceneFps) &&
              decide (i.filmActivity ≠ s.lastFilmActivity)) ||
            (updateRenderOutput s.sel i.guiIndx i.rodPresent i.outputNames).1)) = false := by
        simpa using hb
      unfold progDisplayPhase
      dsimp only
      rw [if_pos hgate, if_neg (fun hc => Bool.false_ne_true (hbf ▸ hc)), hbf]
      split_ifs <;> rfl
  refine ⟨hpc, ?_, ?_⟩
  · intro hp
    rw [progDisplayPhase_pushTrue s i hgate (hpc.symm.trans hp)]
    exact ⟨rfl, rfl, rfl⟩
  · intro hf
    unfold effFps
    rw [if_pos hf]

/-- Witness for C3 at the concrete state progW and tick inW1: the frame is
rendering, ready, the interval has elapsed and samples are pending. -/
theorem progressive_push_characterization_witness :
    (inW1.frameRendering = true ∨ inW1.frameComplete = true) ∧
    (((progDisplayPhase progW inW1).2.1 =
      (inW1.readyForDisplay &&
        ((snapshotIntervalElapsed inW1.currentTime progW.lastSnapshotTime (effFps inW1.sceneFps) &&
            decide (inW1.filmActivity ≠ progW.lastFilmActivity)) ||
          (updateRenderOutput progW.sel inW1.guiIndx inW1.rodPresent inW1.outputNames).1))) ∧
    ((progDisplayPhase progW inW1).2.1 = true →
      (progDisplayPhase progW inW1).1.lastSnapshotTimestamp = progW.renderTimestamp ∧
      (progDisplayPhase progW inW1).1.lastSnapshotTime = inW1.currentTime ∧
      (progDisplayPhase progW inW1).1.lastFilmActivity = inW1.filmActivity) ∧
    (inW1.sceneFps < 1 / 1000000 → effFps inW1.sceneFps = 24)) :=
  ⟨Or.inl rfl, progressive_push_characterization progW inW1 (Or.inl rfl)⟩

/-- C9: calling the progressive update twice within the same 1/fps
interval (the throttle comparison for the second call is false), with no
new samples between the calls, no output-selection change, no pending
refresh request and no scene changes, produces exactly one display push
across the two calls: the first call pushes once and the second call
pushes nothing. -/
theorem progressive_throttle_idempotent (s : GuiState) (iA iB : ProgInput)
    (hgateA : iA.frameRendering = true ∨ iA.frameComplete = true)
    (hreadyA : iA.readyForDisplay = true)
    (hintA : snapshotIntervalElapsed iA.currentTime s.lastSnapshotTime (effFps iA.sceneFps)
        = true)
    (hsampA : iA.filmActivity ≠ s.lastFilmActivity)
    (hguiA : iA.guiIndx = s.sel.lastRenderOutputGuiIndx)
    (hcountA : s.sel.lastTotalRenderOutputs = (iA.outputNames.length : ℤ))
    (hnr : s.needsRefresh = false)
    (hcamA : iA.cameraXform = s.lastCameraXform)
    (hmrA : s.masterTimestamp = s.renderTimestamp)
    (hmodeA : (if iA.vpIsFastProgressive = true then RenderMode.PROGRESSIVE_FAST
               else RenderMode.PROGRESSIVE) = s.renderMode)
    (hfastA : iA.vpFastMode = s.fastRenderMode)
    (hfilmB : iB.filmActivity = iA.filmActivity)
    (hfpsB : iB.sceneFps = iA.sceneFps)
    (hwithin : snapshotIntervalElapsed iB.currentTime iA.currentTime (effFps iA.sceneFps)
        = false)
    (hguiB : iB.guiIndx = iA.guiIndx)
    (hcountB : iB.outputNames.length = iA.outputNames.length) :
    (updateProgressiveRendering s iA).2.pushedMain = true ∧
    (updateProgressiveRendering s iA).2.pushedRefresh = false ∧
    (updateProgressiveRendering (updateProgressiveRendering s iA).1 iB).2.pushedMain = false ∧
    (updateProgressiveRendering (updateProgressiveRendering s iA).1 iB).2.pushedRefresh
        = false := by
  have hro : updateRenderOutput s.sel iA.guiIndx iA.rodPresent iA.outputNames
      = (false, s.sel) :=
    updateRenderOutput_noChange _ _ _ _ hguiA hcountA
  have hcond : (iA.readyForDisplay &&
      ((snapshotIntervalElapsed iA.currentTime s.lastSnapshotTime (effFps iA.sceneFps) &&
          decide (iA.filmActivity ≠ s.lastFilmActivity)) ||
        (updateRenderOutput s.sel iA.guiIndx iA.rodPresent iA.outputNames).1)) = true := by
    rw [hreadyA, hintA, hro]
    simp [hsampA]
  have hd := progDisplayPhase_pushTrue s iA hgateA hcond
  rw [hro] at hd
  have hquietR : progRestartPhase (progDisplayPhase s iA).1 iA
      = ((progDisplayPhase s iA).1, false) := by
    rw [hd]
    exact progRestartPhase_quiet _ iA hcamA hmrA hmodeA hfastA
  have hstate : (updateProgressiveRendering s iA).1 = (progDisplayPhase s iA).1 := by
    unfold updateProgressiveRendering
    dsimp only
    rw [hquietR]
  have hroB : updateRenderOutput (progDisplayPhase s iA).1.sel iB.guiIndx iB.rodPresent
      iB.outputNames = (false, (progDisplayPhase s iA).1.sel) := by
    apply updateRenderOutput_noChange
    · rw [hd, hguiB, hguiA]
    · rw [hd]
      show s.sel.lastTotalRenderOutputs = ((iB.outputNames.length : ℕ) : ℤ)
      rw [hcountB]
      exact hcountA
  have hcondB : (iB.readyForDisplay &&
      ((snapshotIntervalElapsed iB.currentTime (progDisplayPhase s iA).1.lastSnapshotTime
          (effFps iB.sceneFps) &&
          decide (iB.filmActivity ≠ (progDisplayPhase s iA).1.lastFilmActivity)) ||
        (updateRenderOutput (progDisplayPhase s iA).1.sel iB.guiIndx iB.rodPresent
          iB.outputNames).1)) = false := by
    rw [hroB, hd]
    show (iB.readyForDisplay &&
      ((snapshotIntervalElapsed iB.currentTime iA.currentTime (effFps iB.sceneFps) &&
          decide (iB.filmActivity ≠ iA.filmActivity)) || false)) = false
    rw [hfpsB, hwithin, hfilmB]
    simp
  have hq := progDisplayPhase_quiet (progDisplayPhase s iA).1 iB
    (by rw [hd]; exact hnr) hcondB
  refine ⟨?_, ?_, ?_, ?_⟩
  · rw [updateProgressiveRendering_pushedMain, hd]
  · rw [updateProgressiveRendering_pushedRefresh, hd]
  · rw [hstate, updateProgressiveRendering_pushedMain]
    exact hq.1
  · rw [hstate, updateProgressiveRendering_pushedRefresh]
    exact hq.2

/-- Witness for C9 at progW with ticks inW1 (pushes) and inW2 (10 ms
later, same film activity: no push). -/
theorem progressive_throttle_idempotent_witness :
    snapshotIntervalElapsed inW1.currentTime progW.lastSnapshotTime (effFps inW1.sceneFps)
        = true ∧
    snapshotIntervalElapsed inW2.currentTime inW1.currentTime (effFps inW1.sceneFps)
        = false ∧
    ((updateProgressiveRendering progW inW1).2.pushedMain = true ∧
      (updateProgressiveRendering progW inW1).2.pushedRefresh = false ∧
      (updateProgressiveRendering (updateProgressiveRendering progW inW1).1 inW2).2.pushedMain
          = false ∧
      (updateProgressiveRendering (updateProgressiveRendering progW inW1).1 inW2).2.pushedRefresh
          = false) :=
  ⟨by with_unfolding_all decide, by with_unfolding_all decide,
    progressive_throttle_idempotent progW inW1 inW2 (Or.inl rfl) rfl
      (by with_unfolding_all decide) (by decide) (by decide) (by decide) rfl rfl rfl
      (by decide) rfl rfl rfl (by with_unfolding_all decide) rfl rfl⟩

end MoonrayGui
